import Mathlib

set_option maxRecDepth 8192

/-!
Shallow embedding of `python/triton/common/build.py`.

Environment variables, the PATH lookup (`shutil.which`), the filesystem,
`ldconfig` output, subprocess exit statuses and `sysconfig` values enter
through an explicit `World` record.  `os.path` functions are modelled with
their POSIX semantics.  Python exceptions are modelled with `Except PyError`.
-/

/-- Environment variables, as read by `os.environ.get` / `os.getenv`. -/
abbrev Env : Type := String → Option String

/-- Exceptions that the code in `build.py` can raise. -/
inductive PyError : Type where
  | assertionError (msg : String)
  | typeError
  | runtimeError (msg : String)
  | calledProcessError (returncode : Nat)
  | setupError
  deriving DecidableEq

/-- Python truthiness of an `os.getenv` result: a set, non-empty string. -/
def truthy : Option String → Bool
  | some s => s ≠ ""
  | none => false

/-- Tokenizer behind `str.split()`: accumulate the current (reversed) token,
emit it at each whitespace run and at the end. -/
def wsSplitAux : List Char → List Char → List String
  | [], cur => if cur.isEmpty then [] else [String.mk cur.reverse]
  | c :: cs, cur =>
    if c.isWhitespace then
      if cur.isEmpty then wsSplitAux cs []
      else String.mk cur.reverse :: wsSplitAux cs []
    else wsSplitAux cs (c :: cur)

/-- `str.split()` with no argument: split on whitespace runs, dropping empties. -/
def pySplitWs (s : String) : List String :=
  wsSplitAux s.data []

/-- `startsWithChars s pre`: `pre` is a prefix of the character list `s`. -/
def startsWithChars : List Char → List Char → Bool
  | _, [] => true
  | [], _ :: _ => false
  | c :: cs, p :: ps => c == p && startsWithChars cs ps

/-- `matchesAt pat s`: `pat` occurs in `s` at some position. -/
def matchesAt (pat : List Char) : List Char → Bool
  | [] => startsWithChars [] pat
  | c :: cs => startsWithChars (c :: cs) pat || matchesAt pat cs

/-- Python substring containment `pat in s`. -/
def containsSub (s pat : String) : Bool :=
  matchesAt pat.data s.data

/-- `", ".join` as used when printing a Python list. -/
def strIntercalate (sep : String) : List String → String
  | [] => ""
  | [x] => x
  | x :: y :: xs => x ++ sep ++ strIntercalate sep (y :: xs)

/-- `str` of a Python list of strings, as interpolated by `'%s' % str(locs)`. -/
def pyStrList (xs : List String) : String :=
  "[" ++ strIntercalate ", " (xs.map (fun s => "\x27" ++ s ++ "\x27")) ++ "]"

/-- Strip trailing `/` characters (`head.rstrip(sep)` in `posixpath.dirname`). -/
def rstripSlash (s : String) : String :=
  String.mk ((s.data.reverse.dropWhile (fun c => c = '/')).reverse)

/-- `os.path.dirname`, POSIX semantics: everything before the last `/`,
with trailing slashes stripped unless the result is all slashes. -/
def dirname (p : String) : String :=
  match p.data.reverse.findIdx? (fun c => c = '/') with
  | none => ""
  | some k =>
    let head := String.mk (p.data.take (p.data.length - k))
    if head.data.all (fun c => c = '/') then head else rstripSlash head

/-- `os.path.join` on two components, POSIX semantics. -/
def joinPath (a b : String) : String :=
  if startsWithChars b.data ['/'] then b
  else if a = "" ∨ startsWithChars a.data.reverse ['/'] then a ++ b
  else a ++ "/" ++ b

/-- The ambient state `build.py` reads: environment, PATH lookup, filesystem,
`ldconfig` output, subprocess behaviour and interpreter configuration.
`run cmd` is the exit status of executing `cmd`; `extSuffix` is
`sysconfig.get_config_var('EXT_SUFFIX')`; `pyIncludeDir` is the scheme
include path `sysconfig.get_paths(scheme=scheme)["include"]`; `fileName`
is the module `__file__`; `setupFails` says whether `setuptools.setup`
raises when invoked. -/
structure World : Type where
  env : Env
  osName : String
  which : String → Option String
  ldconfigLines : List String
  pathExists : String → Bool
  extSuffix : String
  pyIncludeDir : String
  installedBase : String
  fileName : String
  isHip : Bool
  run : List String → Nat
  setupFails : Bool

/-- The message handed to the `assert` in `libcuda_dirs`. -/
def libcudaMsg (locs : List String) : String :=
  let msg := "libcuda.so cannot found!\n"
  if locs ≠ [] then
    msg ++ "Possible files are located at " ++ pyStrList locs ++ "." ++
      "Please create a symlink of libcuda.so to any of the file."
  else
    msg ++ "Please make sure GPU is setup and then run \"/sbin/ldconfig\"" ++
      " (requires sudo) to refresh the linker cache."

/-- `locs` inside `libcuda_dirs`: the last whitespace-separated token of
every `ldconfig -p` line that contains `libcuda.so`.  Such a line holds a
non-whitespace character, so `getLastD` never takes its default. -/
def ldconfigLocs (w : World) : List String :=
  (w.ldconfigLines.filter (fun line => containsSub line "libcuda.so")).map
    (fun line => (pySplitWs line).getLastD "")

/-- `dirs` inside `libcuda_dirs`: `os.path.dirname` of each location. -/
def ldconfigDirs (w : World) : List String :=
  (ldconfigLocs w).map dirname

/-- `libcuda_dirs` from `build.py` (the body; the `functools.lru_cache()`
wrapper is modelled by `cachedCall` below).  On `nt`,
`os.environ.get("CUDA_PATH") + "\\lib\\x64"` raises `TypeError` when
`CUDA_PATH` is unset (`None + str`).  The POSIX branch ends in
`assert any(os.path.exists(...)), msg`. -/
def libcuda_dirs (w : World) : Except PyError (List String) :=
  let env_libcuda_path := w.env "TRITON_LIBCUDA_PATH"
  if truthy env_libcuda_path then
    Except.ok [env_libcuda_path.getD ""]
  else if w.osName = "nt" then
    match w.env "CUDA_PATH" with
    | none => Except.error PyError.typeError
    | some p => Except.ok [p ++ "\\lib\\x64"]
  else
    if (ldconfigDirs w).any (fun path => w.pathExists (joinPath path "libcuda.so")) then
      Except.ok (ldconfigDirs w)
    else
      Except.error (PyError.assertionError (libcudaMsg (ldconfigLocs w)))

/-- `rocm_path_dir` from `build.py`: `os.getenv("ROCM_PATH", default="/opt/rocm")`. -/
def rocm_path_dir (env : Env) : String :=
  (env "ROCM_PATH").getD "/opt/rocm"

/-- `cuda_include_dir` from `build.py`, with `__file__` passed explicitly. -/
def cuda_include_dir (file : String) : String :=
  let base_dir := joinPath (dirname file) ".."
  let cuda_path := joinPath (joinPath base_dir "third_party") "cuda"
  joinPath cuda_path "include"

/-- `functools.lru_cache()` on a zero-argument function whose ambient state
has type `W`: the first successful call stores its result, later calls
return the stored result without recomputing; a raising call stores
nothing.  The pair is (call outcome, cache after the call). -/
def cachedCall {W α : Type} (compute : W → Except PyError α) :
    Option α → W → Except PyError α × Option α
  | some r, _ => (Except.ok r, some r)
  | none, w =>
    match compute w with
    | Except.ok a => (Except.ok a, some a)
    | Except.error e => (Except.error e, none)

/-- The cached body of `rocm_path_dir` (it never raises). -/
def rocmCompute (env : Env) : Except PyError String :=
  Except.ok (rocm_path_dir env)

/-- The cached body of `cuda_include_dir` (it never raises). -/
def cudaIncludeCompute (file : String) : Except PyError String :=
  Except.ok (cuda_include_dir file)

/-- `sys.stdout` / `sys.stderr` as numbered stream handles; `nextHandle`
numbers the fresh `io.StringIO()` objects `quiet` allocates. -/
structure SysState : Type where
  stdout : Nat
  stderr : Nat
  nextHandle : Nat

/-- The `quiet` context manager from `build.py`: save the current streams,
point both at fresh `io.StringIO()` objects, run the managed block, and in
a `finally` restore the saved streams — whether the block returned or
raised.  The block is any state transformer that may raise. -/
def quiet {α : Type} (body : SysState → Except PyError α × SysState) (s : SysState) :
    Except PyError α × SysState :=
  let old_stdout := s.stdout
  let old_stderr := s.stderr
  let r := body ⟨s.nextHandle, s.nextHandle + 1, s.nextHandle + 2⟩
  (r.1, ⟨old_stdout, old_stderr, r.2.nextHandle⟩)

/-- The compiler selection inside `_build`: `os.environ.get("CC")`, else
`shutil.which("gcc")`, else `shutil.which("clang")`, else `RuntimeError`. -/
def chooseCC (env : Env) (which : String → Option String) : Except PyError String :=
  match env "CC" with
  | some cc => Except.ok cc
  | none =>
    match which "gcc", which "clang" with
    | some gcc, _ => Except.ok gcc
    | none, some clang => Except.ok clang
    | none, none =>
      Except.error (PyError.runtimeError
        "Failed to find C compiler. Please specify via CC environment variable.")

/-- `_cc_cmd` from `build.py`.  On `nt`,
`cc_cmd.pop(cc_cmd.index("-fPIC"))` removes the first occurrence of
`"-fPIC"` from the finished list, which is `List.erase`. -/
def _cc_cmd (osName cc src out : String) (include_dirs library_dirs : List String) :
    List String :=
  if cc = "cl" then
    [cc, src, "/nologo", "/O2", "/LD"]
      ++ include_dirs.map (fun dir => "/I" ++ dir)
      ++ ["/link"]
      ++ library_dirs.map (fun dir => "/LIBPATH:" ++ dir)
      ++ ["cuda.lib", "/OUT:" ++ out]
  else
    let cc_cmd := [cc, src, "-O3", "-shared", "-fPIC"]
      ++ include_dirs.map (fun dir => "-I" ++ dir)
      ++ library_dirs.map (fun dir => "-L" ++ dir)
      ++ ["-lcuda", "-o", out]
    if osName = "nt" then cc_cmd.erase "-fPIC" else cc_cmd

/-- `subprocess.check_call`: returns 0 when the command exits with status 0
and raises `CalledProcessError` on any non-zero exit status. -/
def check_call (w : World) (cmd : List String) : Except PyError Nat :=
  if w.run cmd = 0 then Except.ok 0
  else Except.error (PyError.calledProcessError (w.run cmd))

/-- `py_lib_dirs` inside `_build`: only populated on `nt`. -/
def pyLibDirs (w : World) : List String :=
  if w.osName = "nt" then
    [(w.env "PYTHON_LIB_DIRS").getD (joinPath w.installedBase "libs")]
  else []

/-- `_build` from `build.py`: GPU toolkit discovery (rocm paths under hip,
otherwise `libcuda_dirs` / `cuda_include_dir`), the output path `so`,
compiler selection, the direct compiler invocation through
`subprocess.check_call`, and — only when that call returned a non-zero
value — the setuptools fallback (`setuptools.setup` under `quiet()`). -/
def _build (w : World) (name src srcdir : String) : Except PyError String :=
  match (if w.isHip then Except.ok [] else libcuda_dirs w : Except PyError (List String)) with
  | Except.error e => Except.error e
  | Except.ok cuda_lib_dirs =>
    let so := joinPath srcdir (name ++ w.extSuffix)
    match chooseCC w.env w.which with
    | Except.error e => Except.error e
    | Except.ok cc =>
      let cc_cmd :=
        if w.isHip then
          [cc, src, "-I" ++ joinPath (rocm_path_dir w.env) "include",
           "-I" ++ w.pyIncludeDir, "-I" ++ srcdir, "-shared", "-fPIC",
           "-L" ++ joinPath (rocm_path_dir w.env) "lib", "-lamdhip64", "-o", so]
        else
          _cc_cmd w.osName cc src so
            [cuda_include_dir w.fileName, w.pyIncludeDir, srcdir]
            (cuda_lib_dirs ++ pyLibDirs w)
      match check_call w cc_cmd with
      | Except.error e => Except.error e
      | Except.ok ret =>
        if ret = 0 then Except.ok so
        else
          if w.setupFails then Except.error PyError.setupError else Except.ok so

/-- An empty environment: no variables set. -/
def env0 : Env := fun _ => none

/-- Environment for a concrete CUDA build: a library-path override and CC. -/
def envCuda : Env := fun k =>
  if k = "TRITON_LIBCUDA_PATH" then some "/usr/lib"
  else if k = "CC" then some "gcc" else none

/-- Environment that sets ROCM_PATH (after a first lookup cached without it). -/
def envRocmSet : Env := fun k =>
  if k = "ROCM_PATH" then some "/moved/rocm" else none

/-- Environment that only overrides TRITON_LIBCUDA_PATH. -/
def envLibcudaSet : Env := fun k =>
  if k = "TRITON_LIBCUDA_PATH" then some "/opt/cuda/lib" else none

/-- A baseline POSIX world: nothing set, nothing found, commands exit 0. -/
def world0 : World :=
  { env := env0
    osName := "posix"
    which := fun _ => none
    ldconfigLines := []
    pathExists := fun _ => false
    extSuffix := ".so"
    pyIncludeDir := "/usr/include/python3.9"
    installedBase := "/usr"
    fileName := "/repo/python/triton/common/build.py"
    isHip := false
    run := fun _ => 0
    setupFails := false }

/-- POSIX world where ldconfig reports one libcuda entry and the symlink exists. -/
def wPosix : World :=
  { world0 with
    ldconfigLines := ["libcuda.so.1 (libc6,x86-64) => /usr/lib/libcuda.so.1"]
    pathExists := fun p => p == "/usr/lib/libcuda.so" }

/-- Windows world with neither TRITON_LIBCUDA_PATH nor CUDA_PATH set. -/
def wNt : World := { world0 with osName := "nt" }

/-- A hip world (discovery goes through rocm paths, which cannot raise). -/
def wHip : World := { world0 with isHip := true }

/-- World where discovery and compiler selection succeed and the compiler exits 0. -/
def wOk : World := { world0 with env := envCuda }

/-- Same world, but every subprocess exits with status 1. -/
def wFail : World := { world0 with env := envCuda, run := fun _ => 1 }

/-- World where only TRITON_LIBCUDA_PATH is set. -/
def wEnvSet : World := { world0 with env := envLibcudaSet }

/-- `lru_cache` on a zero-argument function: once a call has succeeded, any
later call returns the stored result, whatever the ambient state is then. -/
theorem cachedCall_stable {W α : Type} (compute : W → Except PyError α)
    (w₁ w₂ : W) (r : α) (h : (cachedCall compute Option.none w₁).1 = Except.ok r) :
    cachedCall compute (cachedCall compute Option.none w₁).2 w₂ = (Except.ok r, some r) := by
  cases hc : compute w₁ with
  | ok a =>
    have ha : a = r := by simpa [cachedCall, hc] using h
    subst ha
    simp [cachedCall, hc]
  | error e =>
    simp [cachedCall, hc] at h

/-- Claim C4: with TRITON_LIBCUDA_PATH set to a non-empty string `p`,
`libcuda_dirs` returns exactly `[p]`, for every platform, filesystem and
ldconfig state — no other discovery runs and no existence check is made. -/
theorem libcuda_dirs_env_override (w : World) (p : String)
    (hset : w.env "TRITON_LIBCUDA_PATH" = some p) (hne : p ≠ "") :
    libcuda_dirs w = Except.ok [p] := by
  simp [libcuda_dirs, truthy, hset, hne]

theorem libcuda_dirs_env_override_witness :
    libcuda_dirs wEnvSet = Except.ok ["/opt/cuda/lib"] :=
  libcuda_dirs_env_override wEnvSet "/opt/cuda/lib" rfl (by decide)

/-- Claim C5: `rocm_path_dir` is the value of ROCM_PATH when it is set and
`"/opt/rocm"` otherwise. -/
theorem rocm_path_dir_spec (env : Env) :
    (∀ v, env "ROCM_PATH" = some v → rocm_path_dir env = v) ∧
    (env "ROCM_PATH" = none → rocm_path_dir env = "/opt/rocm") := by
  constructor
  · intro v hv; simp [rocm_path_dir, hv]
  · intro hv; simp [rocm_path_dir, hv]

theorem rocm_path_dir_spec_witness :
    rocm_path_dir env0 = "/opt/rocm" :=
  (rocm_path_dir_spec env0).2 rfl

/-- Claim C2: on POSIX with TRITON_LIBCUDA_PATH unset, `libcuda_dirs`
returns the directory of every ldconfig entry whose line contains
`"libcuda.so"` when at least one of those directories holds a file
`libcuda.so`, and raises an `AssertionError` carrying the diagnostic
message when none of them does. -/
theorem libcuda_dirs_posix_spec (w : World)
    (hunset : w.env "TRITON_LIBCUDA_PATH" = none) (hposix : w.osName = "posix") :
    ((ldconfigDirs w).any (fun path => w.pathExists (joinPath path "libcuda.so")) = true →
      libcuda_dirs w = Except.ok (ldconfigDirs w)) ∧
    ((ldconfigDirs w).any (fun path => w.pathExists (joinPath path "libcuda.so")) = false →
      libcuda_dirs w = Except.error (PyError.assertionError (libcudaMsg (ldconfigLocs w)))) := by
  constructor
  · intro h; simp [libcuda_dirs, truthy, hunset, hposix, h]
  · intro h; simp [libcuda_dirs, truthy, hunset, hposix, h]

theorem libcuda_dirs_posix_spec_witness :
    (ldconfigDirs wPosix).any
      (fun path => wPosix.pathExists (joinPath path "libcuda.so")) = true ∧
    libcuda_dirs wPosix = Except.ok ["/usr/lib"] :=
  ⟨by decide, (libcuda_dirs_posix_spec wPosix rfl rfl).1 (by decide)⟩

/-- Claim C8: on Windows (`os.name == "nt"`) with TRITON_LIBCUDA_PATH unset,
`libcuda_dirs` returns `[CUDA_PATH ++ "\\lib\\x64"]` when CUDA_PATH is set —
with no existence check, since the result holds for every filesystem — and
raises a bare `TypeError` (not a diagnostic) when CUDA_PATH is unset. -/
theorem libcuda_dirs_windows_behavior (w : World)
    (hunset : w.env "TRITON_LIBCUDA_PATH" = none) (hnt : w.osName = "nt") :
    (∀ v, w.env "CUDA_PATH" = some v →
      libcuda_dirs w = Except.ok [v ++ "\\lib\\x64"]) ∧
    (w.env "CUDA_PATH" = none → libcuda_dirs w = Except.error PyError.typeError) := by
  constructor
  · intro v hv; simp [libcuda_dirs, truthy, hunset, hnt, hv]
  · intro hv; simp [libcuda_dirs, truthy, hunset, hnt, hv]

theorem libcuda_dirs_windows_behavior_witness :
    libcuda_dirs wNt = Except.error PyError.typeError :=
  (libcuda_dirs_windows_behavior wNt rfl rfl).2 rfl

/-- Claim C3: the compiler `_build` uses is the value of CC when that
environment variable is set, else the gcc found on PATH, else the clang
found on PATH; with none available the selection raises a RuntimeError
asking to specify the compiler via CC, and `_build` propagates that error
whenever toolkit discovery succeeded. -/
theorem build_compiler_choice (w : World) :
    (∀ v, w.env "CC" = some v → chooseCC w.env w.which = Except.ok v) ∧
    (w.env "CC" = none → ∀ g, w.which "gcc" = some g →
      chooseCC w.env w.which = Except.ok g) ∧
    (w.env "CC" = none → w.which "gcc" = none → ∀ c, w.which "clang" = some c →
      chooseCC w.env w.which = Except.ok c) ∧
    (w.env "CC" = none → w.which "gcc" = none → w.which "clang" = none →
      chooseCC w.env w.which = Except.error (PyError.runtimeError
        "Failed to find C compiler. Please specify via CC environment variable.") ∧
      ∀ name src srcdir ds,
        (if w.isHip then Except.ok [] else libcuda_dirs w) = Except.ok ds →
        _build w name src srcdir = Except.error (PyError.runtimeError
          "Failed to find C compiler. Please specify via CC environment variable.")) := by
  refine ⟨?_, ?_, ?_, ?_⟩
  · intro v hv; simp [chooseCC, hv]
  · intro h0 g hg; simp [chooseCC, h0, hg]
  · intro h0 hg c hc; simp [chooseCC, h0, hg, hc]
  · intro h0 hg hc
    have hcc : chooseCC w.env w.which = Except.error (PyError.runtimeError
        "Failed to find C compiler. Please specify via CC environment variable.") := by
      simp [chooseCC, h0, hg, hc]
    refine ⟨hcc, ?_⟩
    intro name src srcdir ds hd
    simp [_build, hd, hcc]

theorem build_compiler_choice_witness :
    _build wHip "m" "/tmp/m.c" "/tmp" = Except.error (PyError.runtimeError
      "Failed to find C compiler. Please specify via CC environment variable.") :=
  ((build_compiler_choice wHip).2.2.2 rfl rfl rfl).2 "m" "/tmp/m.c" "/tmp" [] rfl

/-- Claim C6: each `lru_cache`-wrapped zero-argument discovery function —
`libcuda_dirs`, `rocm_path_dir`, `cuda_include_dir` — returns, on every
call after the first successful one, the cached result of that first call,
whatever the environment or filesystem holds at the later call. -/
theorem cached_discovery_stable :
    (∀ (w₁ w₂ : World) (r : List String),
      (cachedCall libcuda_dirs Option.none w₁).1 = Except.ok r →
      cachedCall libcuda_dirs (cachedCall libcuda_dirs Option.none w₁).2 w₂ =
        (Except.ok r, some r)) ∧
    (∀ (e₁ e₂ : Env) (r : String),
      (cachedCall rocmCompute Option.none e₁).1 = Except.ok r →
      cachedCall rocmCompute (cachedCall rocmCompute Option.none e₁).2 e₂ =
        (Except.ok r, some r)) ∧
    (∀ (f₁ f₂ : String) (r : String),
      (cachedCall cudaIncludeCompute Option.none f₁).1 = Except.ok r →
      cachedCall cudaIncludeCompute (cachedCall cudaIncludeCompute Option.none f₁).2 f₂ =
        (Except.ok r, some r)) :=
  ⟨fun w₁ w₂ r h => cachedCall_stable libcuda_dirs w₁ w₂ r h,
   fun e₁ e₂ r h => cachedCall_stable rocmCompute e₁ e₂ r h,
   fun f₁ f₂ r h => cachedCall_stable cudaIncludeCompute f₁ f₂ r h⟩

theorem cached_discovery_stable_witness :
    cachedCall rocmCompute (cachedCall rocmCompute Option.none env0).2 envRocmSet =
      (Except.ok "/opt/rocm", some "/opt/rocm") :=
  cached_discovery_stable.2.1 env0 envRocmSet "/opt/rocm" rfl

/-- Claim C7: the command `_cc_cmd` builds — the MSVC shape for `cl`, the
gcc/clang shape otherwise, where on Windows the first occurrence of
`"-fPIC"` is removed (`cc_cmd.pop(cc_cmd.index("-fPIC"))`); when neither
`cc` nor `src` is itself the string `"-fPIC"`, the removed occurrence is
the flag of the five-element prefix. -/
theorem cc_cmd_shape (osName cc src out : String)
    (include_dirs library_dirs : List String) :
    (cc = "cl" →
      _cc_cmd osName cc src out include_dirs library_dirs =
        [cc, src, "/nologo", "/O2", "/LD"]
          ++ include_dirs.map (fun dir => "/I" ++ dir)
          ++ ["/link"]
          ++ library_dirs.map (fun dir => "/LIBPATH:" ++ dir)
          ++ ["cuda.lib", "/OUT:" ++ out]) ∧
    (cc ≠ "cl" → osName ≠ "nt" →
      _cc_cmd osName cc src out include_dirs library_dirs =
        [cc, src, "-O3", "-shared", "-fPIC"]
          ++ include_dirs.map (fun dir => "-I" ++ dir)
          ++ library_dirs.map (fun dir => "-L" ++ dir)
          ++ ["-lcuda", "-o", out]) ∧
    (cc ≠ "cl" → osName = "nt" →
      _cc_cmd osName cc src out include_dirs library_dirs =
        ([cc, src, "-O3", "-shared", "-fPIC"]
          ++ include_dirs.map (fun dir => "-I" ++ dir)
          ++ library_dirs.map (fun dir => "-L" ++ dir)
          ++ ["-lcuda", "-o", out]).erase "-fPIC") ∧
    (cc ≠ "cl" → osName = "nt" → cc ≠ "-fPIC" → src ≠ "-fPIC" →
      _cc_cmd osName cc src out include_dirs library_dirs =
        [cc, src, "-O3", "-shared"]
          ++ include_dirs.map (fun dir => "-I" ++ dir)
          ++ library_dirs.map (fun dir => "-L" ++ dir)
          ++ ["-lcuda", "-o", out]) := by
  refine ⟨?_, ?_, ?_, ?_⟩
  · intro h; simp [_cc_cmd, h]
  · intro h1 h2; simp [_cc_cmd, h1, h2]
  · intro h1 h2; simp [_cc_cmd, h1, h2]
  · intro h1 h2 h3 h4
    simp [_cc_cmd, h1, h2, List.erase_cons, h3, h4]

theorem cc_cmd_shape_witness :
    _cc_cmd "nt" "gcc" "m.c" "m.so" ["/inc"] ["/lib"] =
      ["gcc", "m.c", "-O3", "-shared", "-I/inc", "-L/lib", "-lcuda", "-o", "m.so"] :=
  (cc_cmd_shape "nt" "gcc" "m.c" "m.so" ["/inc"] ["/lib"]).2.2.2
    (by decide) rfl (by decide) (by decide)

/-- Claim C9: `quiet` restores `sys.stdout` and `sys.stderr` to the exact
values they held on entry, for every managed block and entry state —
whether the block returns or raises. -/
theorem quiet_restores_streams (α : Type)
    (body : SysState → Except PyError α × SysState) (s : SysState) :
    (quiet body s).2.stdout = s.stdout ∧ (quiet body s).2.stderr = s.stderr := by
  constructor <;> simp [quiet]

/-- Claim C10: whenever `_build` returns normally, the returned value is
`os.path.join(srcdir, name + EXT_SUFFIX)` — the same expression on the
direct-compilation path and on the setuptools fallback path. -/
theorem build_returns_ext_path (w : World) (name src srcdir s : String)
    (h : _build w name src srcdir = Except.ok s) :
    s = joinPath srcdir (name ++ w.extSuffix) := by
  simp only [_build] at h
  repeat' split at h
  all_goals first
    | exact Except.noConfusion h
    | exact (Except.ok.inj h).symm

theorem build_returns_ext_path_witness :
    _build wOk "m" "/tmp/m.c" "/tmp" = Except.ok "/tmp/m.so" ∧
    "/tmp/m.so" = joinPath "/tmp" ("m" ++ wOk.extSuffix) :=
  ⟨rfl, build_returns_ext_path wOk "m" "/tmp/m.c" "/tmp" "/tmp/m.so" rfl⟩

/-- Claim C1 (refuted by the code): a non-zero exit status of the direct
compiler invocation is raised by `subprocess.check_call` as
`CalledProcessError` and propagates out of `_build`; the setuptools
fallback guarded by `if ret == 0` is never reached. -/
theorem build_propagates_compiler_failure (w : World) (name src srcdir : String)
    (hhip : w.isHip = false)
    (ds : List String) (hd : libcuda_dirs w = Except.ok ds)
    (cc : String) (hcc : chooseCC w.env w.which = Except.ok cc)
    (hrun : w.run (_cc_cmd w.osName cc src (joinPath srcdir (name ++ w.extSuffix))
        [cuda_include_dir w.fileName, w.pyIncludeDir, srcdir] (ds ++ pyLibDirs w)) ≠ 0) :
    _build w name src srcdir = Except.error (PyError.calledProcessError
      (w.run (_cc_cmd w.osName cc src (joinPath srcdir (name ++ w.extSuffix))
        [cuda_include_dir w.fileName, w.pyIncludeDir, srcdir] (ds ++ pyLibDirs w)))) := by
  simp [_build, hhip, hd, hcc, check_call, hrun]

theorem build_propagates_compiler_failure_witness :
    _build wFail "m" "/tmp/m.c" "/tmp" = Except.error (PyError.calledProcessError 1) :=
  build_propagates_compiler_failure wFail "m" "/tmp/m.c" "/tmp" rfl ["/usr/lib"] rfl
    "gcc" rfl (by decide)
